import Mathlib

/-
Verification of the WebRTC dial core of goutils (src/rpc/wrtc_client.go and
src/rpc/webrtc/peer.go) against its natural-language specification.

The Go code is shallowly embedded:
  * the pure candidate translator (peer.go, iceCandidateInitToProto /
    iceCandidateFromProto) becomes a pair of pure Lean functions; the Go
    integer types uint16 / uint32 become Nat with explicit reduction
    mod 2^16 where the Go code performs a narrowing conversion;
  * the client connection factory (peer.go, newPeerConnectionForClient)
    becomes a function parameterised by an oracle of the fallible
    collaborator steps (API/peer-connection/data-channel creation,
    offer creation, local-description setting, context expiry during the
    gathering wait);
  * the dial pipeline of dialWebRTC up to the initial signaling Call
    becomes a function over an oracle of its fallible steps, so the
    error-classification behaviour (codes.Unimplemented ->
    ErrNoWebRTCSignaler) is explicit;
  * the concurrent part of dialWebRTC (the OnICECandidate hook, the
    exchangeCandidates receive loop running in a background goroutine,
    context cancellation, and the doCall select with its two terminal
    paths) becomes a small-step transition system: a state St, an event
    type Ev (one event per atomic interaction of one of the tasks with
    shared state), and a step function.  A trace is an arbitrary list of
    events, so every interleaving of the tasks is a trace.  Go errors are
    embedded as lists of atoms (multierr.Combine is list append, a nil
    error is the empty list, errors.Is is list membership).
-/

namespace RpcWebRTC

/-! ## Candidate translator (src/rpc/webrtc/peer.go, lines 225-265) -/

/-- Embedding of pion webrtc.ICECandidateInit.  SDPMLineIndex is a
*uint16 in Go; the Nat stored here is meaningful mod 2^16 and locally
produced values are always < 2^16. -/
structure ICECandidateInit where
  candidate : String
  sdpMid : Option String
  sdpMLineIndex : Option Nat
  usernameFragment : Option String
deriving DecidableEq, Repr

/-- Embedding of the wire message webrtcpb.ICECandidate.  SdpmLineIndex is
a *uint32 in Go; the Nat stored here is meaningful mod 2^32. -/
structure ProtoICECandidate where
  candidate : String
  sdpMid : Option String
  sdpmLineIndex : Option Nat
  usernameFragment : Option String
deriving DecidableEq, Repr

/-- Embedding of iceCandidateInitToProto (peer.go lines 229-246).  The Go
conversion uint32(*ij.SDPMLineIndex) widens a uint16, which is always
exact, so the value is copied unchanged.  Absent (nil) optional fields
stay absent. -/
def iceCandidateInitToProto (ij : ICECandidateInit) : ProtoICECandidate :=
  { candidate := ij.candidate
    sdpMid := ij.sdpMid
    sdpmLineIndex := ij.sdpMLineIndex
    usernameFragment := ij.usernameFragment }

/-- Embedding of iceCandidateFromProto (peer.go lines 248-265).  The Go
conversion uint16(*i.SdpmLineIndex) narrows a uint32 to a uint16, i.e.
reduces it mod 2^16.  Absent (nil) optional fields stay absent. -/
def iceCandidateFromProto (i : ProtoICECandidate) : ICECandidateInit :=
  { candidate := i.candidate
    sdpMid := i.sdpMid
    sdpMLineIndex := i.sdpmLineIndex.map (fun v => v % 2 ^ 16)
    usernameFragment := i.usernameFragment }

/-! ## Errors

Go errors are embedded as lists of atoms: multierr.Combine concatenates
(dropping nils), the nil error is [], and errors.Is is membership. -/

/-- gRPC status codes, restricted to the distinction the code makes
(codes.Unimplemented versus everything else). -/
inductive GrpcCode where
  | unimplemented
  | otherCode
deriving DecidableEq, Repr

/-- Atomic errors produced by the embedded code and its collaborators. -/
inductive ErrAtom where
  /-- context.Canceled. -/
  | canceled
  /-- context.DeadlineExceeded. -/
  | deadlineExceeded
  /-- ErrNoWebRTCSignaler (wrtc_client.go line 24). -/
  | noWebRTCSignaler
  /-- a gRPC status error carrying the given code. -/
  | grpcStatus (code : GrpcCode)
  /-- a Call failure that is not a gRPC status error. -/
  | plainCallErr
  /-- dialDirectGRPC failure (wrtc_client.go line 73). -/
  | dialFail
  /-- OptionalWebRTCConfig failure (wrtc_client.go line 87). -/
  | configFail
  /-- newWebRTCAPI failure (peer.go line 55). -/
  | newAPIFail
  /-- NewPeerConnection failure (peer.go line 60). -/
  | newPCFail
  /-- CreateDataChannel failure (peer.go line 74). -/
  | createDCFail
  /-- CreateOffer failure (peer.go line 85 / wrtc_client.go line 136). -/
  | createOfferFail
  /-- SetLocalDescription failure (peer.go line 91 / wrtc_client.go line 167). -/
  | setLocalFail
  /-- encodeSDP failure (wrtc_client.go line 173). -/
  | encodeFail
  /-- the error "got init stage more than once" (wrtc_client.go line 209). -/
  | dupInit
  /-- the error "got update stage before init stage" (wrtc_client.go line 229). -/
  | updateBeforeInit
  /-- the error "uuid mismatch" (wrtc_client.go line 232). -/
  | uuidMismatch (haveU wantU : String)
  /-- the error "unexpected stage" (wrtc_client.go line 239). -/
  | unexpectedStage
  /-- decodeSDP failure (wrtc_client.go line 214). -/
  | decodeFail
  /-- SetRemoteDescription failure (wrtc_client.go line 218). -/
  | setRemoteFail
  /-- AddICECandidate failure (wrtc_client.go line 235). -/
  | addCandFail
  /-- a non-EOF Recv failure (wrtc_client.go line 199). -/
  | recvFail
  /-- a CallUpdate RPC failure with a live context. -/
  | rpcSendFail
deriving DecidableEq, Repr

/-- A Go error value: the (possibly empty, i.e. nil) list of combined
atomic errors, in combination order. -/
abbrev GoErr := List ErrAtom

/-! ## Client connection factory (peer.go, newPeerConnectionForClient) -/

/-- Outcomes of the fallible collaborator steps taken by
newPeerConnectionForClient, in program order. -/
structure FactoryOracle where
  newAPIOk : Bool
  newPCOk : Bool
  createDCOk : Bool
  createOfferOk : Bool
  setLocalOk : Bool
  /-- whether ctx.Done() fires before GatheringCompletePromise (the select
  at peer.go lines 101-105). -/
  ctxDoneBeforeGather : Bool
deriving DecidableEq, Repr

/-- Observable result of a successful newPeerConnectionForClient: the
pre-negotiated data-channel parameters, whether a local description was
installed, and whether the ICE gathering-complete wait had finished when
the factory returned. -/
structure ClientPeer where
  dataChannelNegotiated : Bool
  dataChannelOrdered : Bool
  dataChannelID : Nat
  localDescSet : Bool
  gatherComplete : Bool
deriving DecidableEq, Repr

/-- Embedding of newPeerConnectionForClient (peer.go lines 54-112).  In
vanilla mode (disableTrickle = true) it creates an offer, installs it as
the local description, and blocks until ICE gathering completes (or the
context expires); in trickle mode it returns right after creating the
data channel. -/
def newPeerConnectionForClient (o : FactoryOracle) (disableTrickle : Bool) :
    Except GoErr ClientPeer :=
  if !o.newAPIOk then .error [.newAPIFail]
  else if !o.newPCOk then .error [.newPCFail]
  else if !o.createDCOk then .error [.createDCFail]
  else if disableTrickle then
    if !o.createOfferOk then .error [.createOfferFail]
    else if !o.setLocalOk then .error [.setLocalFail]
    else if o.ctxDoneBeforeGather then .error [.canceled]
    else .ok { dataChannelNegotiated := true, dataChannelOrdered := true,
               dataChannelID := 0, localDescSet := true, gatherComplete := true }
  else
    .ok { dataChannelNegotiated := true, dataChannelOrdered := true,
          dataChannelID := 0, localDescSet := false, gatherComplete := false }

/-! ## Dial pipeline up to the initial Call (wrtc_client.go lines 55-184) -/

/-- Result of the initial bidirectional Call to the signaling service
(wrtc_client.go line 178): success, a gRPC status error with a code, or
a non-status error. -/
inductive CallOutcome where
  | ok
  | statusErr (code : GrpcCode)
  | plainErr
deriving DecidableEq, Repr

/-- Outcomes of the fallible steps of dialWebRTC up to and including the
initial Call, in program order. -/
structure DialOracle where
  dialGRPCOk : Bool
  configOk : Bool
  factory : FactoryOracle
  /-- CreateOffer in the trickle branch (wrtc_client.go line 136). -/
  offerOk : Bool
  /-- SetLocalDescription in the trickle branch (wrtc_client.go line 167). -/
  setLocalOk : Bool
  encodeOk : Bool
  callResult : CallOutcome
deriving DecidableEq, Repr

/-- Embedding of dialWebRTC from the control connection up to the initial
signaling Call (wrtc_client.go lines 73-184).  The deferred conn.Close()
and the deferred pc.Close() on failure return nil errors, so combining
them leaves the returned error unchanged.  A Call failure whose gRPC
status code is Unimplemented is classified as ErrNoWebRTCSignaler
(lines 180-182); any other failure is returned as-is. -/
def dialWebRTCSetup (o : DialOracle) (disableTrickle : Bool) : Except GoErr Unit :=
  if !o.dialGRPCOk then .error [.dialFail]
  else if !o.configOk then .error [.configFail]
  else
    match newPeerConnectionForClient o.factory disableTrickle with
    | .error e => .error e
    | .ok _ =>
      if !disableTrickle && !o.offerOk then .error [.createOfferFail]
      else if !disableTrickle && !o.setLocalOk then .error [.setLocalFail]
      else if !o.encodeOk then .error [.encodeFail]
      else
        match o.callResult with
        | .ok => .ok ()
        | .statusErr code =>
          if code = .unimplemented then .error [.noWebRTCSignaler]
          else .error [.grpcStatus code]
        | .plainErr => .error [.plainCallErr]

/-! ## The candidate exchange as a transition system

The rest of dialWebRTC (wrtc_client.go lines 108-279) is concurrent: the
OnICECandidate hook, the exchangeCandidates loop in a background
goroutine, the caller context, and the doCall select all interact through
shared state (the uuid variable, the sendDoneErrorOnce guard, the
remoteDescSet channel, the exchangeCtx, the errCh channel).  This is
embedded as a state St, events Ev (one per atomic interaction of a task
with the shared state), and a step function; a trace is any list of
events, covering every interleaving. -/

/-- A CallUpdateRequest actually transmitted to the signaling service. -/
inductive Upd where
  /-- an incremental candidate update (wrtc_client.go lines 157-161). -/
  | candidate (uuid : String) (c : ProtoICECandidate)
  /-- the done termination record (lines 124-129). -/
  | done (uuid : String)
  /-- the error termination record carrying ErrorToStatus(callErr)
  (lines 266-271). -/
  | error (uuid : String) (st : GoErr)
deriving DecidableEq, Repr

/-- Shared state of one dial attempt after the initial Call succeeded. -/
structure St where
  /-- dOptsCopy.webrtcOpts.DisableTrickleICE; fixed for the attempt. -/
  trickleDisabled : Bool
  /-- ctx.Err() of the caller context: none while alive. -/
  ctxErr : Option ErrAtom
  /-- whether exchangeCtx is done (the caller context ended, or the
  deferred exchangeCancel ran on return). -/
  exchCancelled : Bool
  /-- whether pc.SetRemoteDescription succeeded (line 218). -/
  remoteDescApplied : Bool
  /-- whether the remoteDescSet channel has been closed (line 222). -/
  remoteDescSet : Bool
  /-- the haveInit flag of exchangeCandidates (line 190). -/
  haveInit : Bool
  /-- the shared uuid variable (line 118); "" until assigned by init. -/
  uuid : String
  /-- whether sendDoneErrorOnce has been consumed (line 120). -/
  once : Bool
  /-- every CallUpdateRequest transmitted so far, in order. -/
  sent : List Upd
  /-- the remote description installed on the peer connection. -/
  pcRemoteDesc : Option String
  /-- candidates applied to the peer connection via AddICECandidate. -/
  pcCands : List ICECandidateInit
  /-- the pending error on errCh, if a sendErr delivered one that doCall
  has not consumed yet. -/
  reported : Option GoErr
  /-- whether the exchangeCandidates goroutine has returned. -/
  taskDone : Bool
  /-- whether dialWebRTC has returned. -/
  dialDone : Bool
  /-- whether clientCh.Close() has been called. -/
  chClosed : Bool
  /-- the error dialWebRTC returned, if it returned one. -/
  retErr : Option GoErr
  /-- whether dialWebRTC returned the established channel. -/
  retChanOk : Bool
deriving DecidableEq, Repr

/-- The state right after the initial Call succeeds: nothing received,
nothing sent, uuid still the empty string. -/
def initSt (disableTrickle : Bool) : St :=
  { trickleDisabled := disableTrickle
    ctxErr := none
    exchCancelled := false
    remoteDescApplied := false
    remoteDescSet := false
    haveInit := false
    uuid := ""
    once := false
    sent := []
    pcRemoteDesc := none
    pcCands := []
    reported := none
    taskDone := false
    dialDone := false
    chClosed := false
    retErr := none
    retChanOk := false }

/-- The error exchangeCtx.Err() reports once the exchange context is
done: DeadlineExceeded if the caller context expired by deadline,
Canceled otherwise. -/
def St.exchCause (s : St) : ErrAtom :=
  match s.ctxErr with
  | some .deadlineExceeded => .deadlineExceeded
  | _ => .canceled

/-- Embedding of the sendErr closure (wrtc_client.go lines 112-117): the
select either escapes through exchangeCtx.Done (dropping the error) or
delivers on the unbuffered errCh; a delivered-but-unconsumed error
occupies the channel, so a second writer can only escape through
cancellation and its error is dropped. -/
def sendErr (s : St) (e : GoErr) : St :=
  if s.exchCancelled then s
  else
    match s.reported with
    | none => { s with reported := some e }
    | some _ => s

/-- The exchangeCandidates goroutine returning err: the
PanicCapturingGoWithCallback wrapper (lines 244-247) forwards a non-nil
error to sendErr. -/
def taskErr (s : St) (e : GoErr) : St :=
  sendErr { s with taskDone := true } e

/-- The loop-head context check of exchangeCandidates (lines 192-197):
on a done exchange context the loop returns nil for context.Canceled and
returns (hence reports) the error otherwise. -/
def taskExit (s : St) : St :=
  if s.exchCause = .canceled then { s with taskDone := true }
  else taskErr s [s.exchCause]

/-- Events: one per atomic interaction of one of the concurrent tasks
with the shared state.  Boolean parameters are the outcomes of fallible
collaborator operations performed inside the corresponding code. -/
inductive Ev where
  /-- the caller context ends (deadline = true for expiry, false for
  explicit cancel); exchangeCtx is its descendant and becomes done too. -/
  | cancelCtx (deadline : Bool)
  /-- the negotiation engine invokes the OnICECandidate hook
  (lines 141-165) with a candidate, or nil for gathering complete. -/
  | iceCandidate (c : Option ICECandidateInit) (ok : Bool)
  /-- the receive loop gets a CallResponse_Init (lines 207-226). -/
  | recvInit (u : String) (sdp : String) (decodeOk : Bool)
      (setRemoteOk : Bool) (sendOk : Bool)
  /-- the receive loop gets a CallResponse_Update (lines 227-237). -/
  | recvUpdate (u : String) (c : ProtoICECandidate) (addOk : Bool)
  /-- the receive loop gets an unexpected stage (lines 238-239). -/
  | recvOther
  /-- callClient.Recv fails (lines 199-205); eof = true for io.EOF. -/
  | recvEnd (eof : Bool)
  /-- doCall observes clientCh.Ready (line 256); dialWebRTC then runs
  sendDone and returns (lines 275-279). -/
  | finishReady (ok : Bool)
  /-- doCall observes ctx.Done (lines 254-255); dialWebRTC closes the
  channel and runs the guarded error send (lines 263-273). -/
  | finishErrCtx (ok : Bool)
  /-- doCall receives from errCh (lines 258-259); dialWebRTC closes the
  channel and runs the guarded error send (lines 263-273). -/
  | finishErrReported (ok : Bool)
deriving DecidableEq, Repr

/-- One atomic step.  none means the event cannot occur in this state:
the task in question is blocked (the OnICECandidate hook waiting on
remoteDescSet), gone (the receive loop after it returned, doCall after
dialWebRTC returned), or never installed (the hook in vanilla mode). -/
def step (s : St) (e : Ev) : Option St :=
  match e with
  | .cancelCtx deadline =>
    match s.ctxErr with
    | some _ => some s
    | none =>
      some { s with
        ctxErr := some (if deadline then .deadlineExceeded else .canceled)
        exchCancelled := true }
  | .iceCandidate c ok =>
    -- pc.OnICECandidate is only installed when trickle ICE is enabled
    -- (line 135), so in vanilla mode the event cannot occur.
    if s.trickleDisabled then none
    -- lines 142-149: return on a done exchange context, either at the
    -- initial check or via the Done arm of the select.
    else if s.exchCancelled then some s
    -- the select blocks until remoteDescSet is closed: the candidate is
    -- queued in the blocked callback, not dropped.
    else if !s.remoteDescSet then none
    else
      match c with
      | none =>
        -- lines 150-155: nil candidate means gathering completed; run
        -- the guarded sendDone, reporting any send failure.
        if s.once then some s
        else if ok then
          some { s with once := true, sent := s.sent ++ [.done s.uuid] }
        else some (sendErr { s with once := true } [.rpcSendFail])
      | some cand =>
        -- lines 156-164: translate and send the candidate update.
        if ok then
          some { s with
            sent := s.sent ++ [.candidate s.uuid (iceCandidateInitToProto cand)] }
        else some (sendErr s [.rpcSendFail])
  | .recvInit u sdp decodeOk setRemoteOk sendOk =>
    if s.taskDone then none
    else if s.exchCancelled then some (taskExit s)
    -- lines 208-210: duplicate init aborts the exchange.
    else if s.haveInit then some (taskErr s [.dupInit])
    else
      -- lines 211-212: haveInit and uuid are set before decoding.
      if !decodeOk then
        some (taskErr { s with haveInit := true, uuid := u } [.decodeFail])
      else if !setRemoteOk then
        some (taskErr { s with haveInit := true, uuid := u } [.setRemoteFail])
      else if s.trickleDisabled then
        -- lines 218-225: apply the remote description, close
        -- remoteDescSet, then return sendDone() in vanilla mode.
        if s.once then
          some { s with haveInit := true, uuid := u, remoteDescApplied := true,
                        remoteDescSet := true, pcRemoteDesc := some sdp,
                        taskDone := true }
        else if sendOk then
          some { s with haveInit := true, uuid := u, remoteDescApplied := true,
                        remoteDescSet := true, pcRemoteDesc := some sdp,
                        once := true, sent := s.sent ++ [.done u],
                        taskDone := true }
        else
          some (taskErr
            { s with haveInit := true, uuid := u, remoteDescApplied := true,
                     remoteDescSet := true, pcRemoteDesc := some sdp,
                     once := true } [.rpcSendFail])
      else
        some { s with haveInit := true, uuid := u, remoteDescApplied := true,
                      remoteDescSet := true, pcRemoteDesc := some sdp }
  | .recvUpdate u c addOk =>
    if s.taskDone then none
    else if s.exchCancelled then some (taskExit s)
    -- lines 228-230: update before init aborts the exchange.
    else if !s.haveInit then some (taskErr s [.updateBeforeInit])
    -- lines 231-233: a session-id mismatch aborts the exchange.
    else if u ≠ s.uuid then some (taskErr s [.uuidMismatch u s.uuid])
    -- lines 234-236: apply the candidate to the peer connection.
    else if addOk then
      some { s with pcCands := s.pcCands ++ [iceCandidateFromProto c] }
    else some (taskErr s [.addCandFail])
  | .recvOther =>
    if s.taskDone then none
    else if s.exchCancelled then some (taskExit s)
    else some (taskErr s [.unexpectedStage])
  | .recvEnd eof =>
    if s.taskDone then none
    else if s.exchCancelled then some (taskExit s)
    else if eof then some { s with taskDone := true }
    else some (taskErr s [.recvFail])
  | .finishReady ok =>
    if s.dialDone then none
    else if s.once then
      -- sendDone is a no-op whose error is nil; return the channel.
      some { s with dialDone := true, exchCancelled := true, retChanOk := true }
    else if s.exchCancelled then
      -- the guarded CallUpdate fails on the done exchange context.
      some { s with once := true, dialDone := true, exchCancelled := true,
                    retErr := some [s.exchCause] }
    else if ok then
      some { s with once := true, sent := s.sent ++ [.done s.uuid],
                    dialDone := true, exchCancelled := true, retChanOk := true }
    else
      some { s with once := true, dialDone := true, exchCancelled := true,
                    retErr := some [.rpcSendFail] }
  | .finishErrCtx ok =>
    if s.dialDone then none
    else
      match s.ctxErr with
      | none => none
      | some cause =>
        -- callErr = multierr.Combine(ctx.Err(), clientCh.Close()); the
        -- close error is nil, so callErr = [cause].
        if s.once then
          some { s with chClosed := true, dialDone := true,
                        exchCancelled := true, retErr := some [cause] }
        else if s.exchCancelled then
          some { s with chClosed := true, once := true, dialDone := true,
                        exchCancelled := true,
                        retErr := some ([cause] ++ [s.exchCause]) }
        else if ok then
          some { s with chClosed := true, once := true,
                        sent := s.sent ++ [.error s.uuid [cause]],
                        dialDone := true, exchCancelled := true,
                        retErr := some [cause] }
        else
          some { s with chClosed := true, once := true, dialDone := true,
                        exchCancelled := true,
                        retErr := some ([cause] ++ [.rpcSendFail]) }
  | .finishErrReported ok =>
    if s.dialDone then none
    else
      match s.reported with
      | none => none
      | some e0 =>
        -- callErr = multierr.Combine(err, clientCh.Close()) = e0.
        if s.once then
          some { s with chClosed := true, reported := none, dialDone := true,
                        exchCancelled := true, retErr := some e0 }
        else if s.exchCancelled then
          some { s with chClosed := true, reported := none, once := true,
                        dialDone := true, exchCancelled := true,
                        retErr := some (e0 ++ [s.exchCause]) }
        else if ok then
          some { s with chClosed := true, reported := none, once := true,
                        sent := s.sent ++ [.error s.uuid e0],
                        dialDone := true, exchCancelled := true,
                        retErr := some e0 }
        else
          some { s with chClosed := true, reported := none, once := true,
                        dialDone := true, exchCancelled := true,
                        retErr := some (e0 ++ [.rpcSendFail]) }

/-- Take a step if the event is enabled, otherwise stay put. -/
def applyEv (s : St) (e : Ev) : St :=
  (step s e).getD s

/-- Run a trace of events from a state. -/
def runFrom (s : St) : List Ev → St
  | [] => s
  | e :: tr => runFrom (applyEv s e) tr

/-- Run a trace of events from the start state of a dial attempt. -/
def run (disableTrickle : Bool) (tr : List Ev) : St :=
  runFrom (initSt disableTrickle) tr

/-- Whether an update is a termination record (done or error). -/
def Upd.isTermRec : Upd → Bool
  | .done _ => true
  | .error _ _ => true
  | .candidate _ _ => false

/-- The number of termination records among the transmitted updates. -/
def termCount (l : List Upd) : Nat :=
  (l.filter Upd.isTermRec).length

/-- The candidate updates among the transmitted updates. -/
def candRecs (l : List Upd) : List Upd :=
  l.filter (fun u => !u.isTermRec)

@[simp] theorem termCount_append (l l2 : List Upd) :
    termCount (l ++ l2) = termCount l + termCount l2 := by
  simp [termCount, List.filter_append]

@[simp] theorem candRecs_append (l l2 : List Upd) :
    candRecs (l ++ l2) = candRecs l ++ candRecs l2 := by
  simp [candRecs, List.filter_append]

@[simp] theorem termCount_nil : termCount [] = 0 := rfl

@[simp] theorem candRecs_nil : candRecs [] = [] := rfl

@[simp] theorem termCount_done_single (u : String) : termCount [.done u] = 1 := rfl

@[simp] theorem termCount_error_single (u : String) (e : GoErr) :
    termCount [.error u e] = 1 := rfl

@[simp] theorem termCount_cand_single (u : String) (c : ProtoICECandidate) :
    termCount [.candidate u c] = 0 := rfl

@[simp] theorem candRecs_done_single (u : String) : candRecs [.done u] = [] := rfl

@[simp] theorem candRecs_error_single (u : String) (e : GoErr) :
    candRecs [.error u e] = [] := rfl

@[simp] theorem candRecs_cand_single (u : String) (c : ProtoICECandidate) :
    candRecs [.candidate u c] = [.candidate u c] := rfl

/-! ## The inductive invariant of the transition system -/

/-- Invariant tying together the one-shot guard, the transmitted updates,
the remote-description signal, the cancellation structure and the session
identifier. -/
def Inv (s : St) : Prop :=
  (s.once = false → termCount s.sent = 0) ∧
  termCount s.sent ≤ 1 ∧
  (s.remoteDescSet = true → s.remoteDescApplied = true) ∧
  (s.remoteDescSet = false → candRecs s.sent = []) ∧
  (s.trickleDisabled = true → candRecs s.sent = []) ∧
  (s.exchCancelled = true → s.ctxErr ≠ none ∨ s.dialDone = true) ∧
  (s.ctxErr ≠ none → s.exchCancelled = true) ∧
  (s.haveInit = false → s.uuid = "")

theorem inv_initSt (dt : Bool) : Inv (initSt dt) := by
  simp [Inv, initSt]

/-- sendErr changes only the reported field, which Inv does not mention. -/
theorem inv_sendErr (s : St) (e : GoErr) (h : Inv s) : Inv (sendErr s e) := by
  unfold sendErr
  split
  · exact h
  · split
    · obtain ⟨h1, h2, h3, h4, h5, h6, h7, h8⟩ := h
      exact ⟨h1, h2, h3, h4, h5, h6, h7, h8⟩
    · exact h

/-- Setting taskDone does not affect any field Inv mentions. -/
theorem inv_taskDone (s : St) (h : Inv s) : Inv { s with taskDone := true } := by
  obtain ⟨h1, h2, h3, h4, h5, h6, h7, h8⟩ := h
  exact ⟨h1, h2, h3, h4, h5, h6, h7, h8⟩

theorem inv_taskErr (s : St) (e : GoErr) (h : Inv s) : Inv (taskErr s e) :=
  inv_sendErr _ _ (inv_taskDone s h)

theorem inv_taskExit (s : St) (h : Inv s) : Inv (taskExit s) := by
  unfold taskExit
  split
  · exact inv_taskDone s h
  · exact inv_taskErr s _ h

set_option maxHeartbeats 1000000 in
/-- Every event preserves the invariant. -/
theorem inv_applyEv (s : St) (e : Ev) (h : Inv s) : Inv (applyEv s e) := by
  obtain ⟨h1, h2, h3, h4, h5, h6, h7, h8⟩ := h
  have hInv : Inv s := ⟨h1, h2, h3, h4, h5, h6, h7, h8⟩
  cases e with
  | cancelCtx d =>
    simp only [applyEv, step]
    split
    · exact hInv
    · refine ⟨?_, ?_, ?_, ?_, ?_, ?_, ?_, ?_⟩ <;> simp_all
  | iceCandidate c ok =>
    simp only [applyEv, step]
    split
    · exact hInv
    · split
      · exact hInv
      · split
        · exact hInv
        · split
          · split
            · exact hInv
            · split
              · refine ⟨?_, ?_, ?_, ?_, ?_, ?_, ?_, ?_⟩ <;> simp_all
              · exact inv_sendErr _ _ (by
                  refine ⟨?_, ?_, ?_, ?_, ?_, ?_, ?_, ?_⟩ <;> simp_all)
          · split
            · refine ⟨?_, ?_, ?_, ?_, ?_, ?_, ?_, ?_⟩ <;> simp_all
            · exact inv_sendErr _ _ hInv
  | recvInit u sdp decodeOk setRemoteOk sendOk =>
    simp only [applyEv, step]
    split
    · exact hInv
    · split
      · exact inv_taskExit s hInv
      · split
        · exact inv_taskErr s _ hInv
        · split
          · exact inv_taskErr _ _ (by
              refine ⟨?_, ?_, ?_, ?_, ?_, ?_, ?_, ?_⟩ <;> simp_all)
          · split
            · exact inv_taskErr _ _ (by
                refine ⟨?_, ?_, ?_, ?_, ?_, ?_, ?_, ?_⟩ <;> simp_all)
            · split
              · split
                · refine ⟨?_, ?_, ?_, ?_, ?_, ?_, ?_, ?_⟩ <;> simp_all
                · split
                  · refine ⟨?_, ?_, ?_, ?_, ?_, ?_, ?_, ?_⟩ <;> simp_all
                  · exact inv_taskErr _ _ (by
                      refine ⟨?_, ?_, ?_, ?_, ?_, ?_, ?_, ?_⟩ <;> simp_all)
              · refine ⟨?_, ?_, ?_, ?_, ?_, ?_, ?_, ?_⟩ <;> simp_all
  | recvUpdate u c addOk =>
    simp only [applyEv, step]
    split
    · exact hInv
    · split
      · exact inv_taskExit s hInv
      · split
        · exact inv_taskErr s _ hInv
        · split
          · exact inv_taskErr s _ hInv
          · split
            · refine ⟨?_, ?_, ?_, ?_, ?_, ?_, ?_, ?_⟩ <;> simp_all
            · exact inv_taskErr s _ hInv
  | recvOther =>
    simp only [applyEv, step]
    split
    · exact hInv
    · split
      · exact inv_taskExit s hInv
      · exact inv_taskErr s _ hInv
  | recvEnd eof =>
    simp only [applyEv, step]
    split
    · exact hInv
    · split
      · exact inv_taskExit s hInv
      · split
        · exact inv_taskDone s hInv
        · exact inv_taskErr s _ hInv
  | finishReady ok =>
    simp only [applyEv, step]
    split
    · exact hInv
    · split
      · refine ⟨?_, ?_, ?_, ?_, ?_, ?_, ?_, ?_⟩ <;> simp_all
      · split
        · refine ⟨?_, ?_, ?_, ?_, ?_, ?_, ?_, ?_⟩ <;> simp_all
        · split
          · refine ⟨?_, ?_, ?_, ?_, ?_, ?_, ?_, ?_⟩ <;> simp_all
          · refine ⟨?_, ?_, ?_, ?_, ?_, ?_, ?_, ?_⟩ <;> simp_all
  | finishErrCtx ok =>
    simp only [applyEv, step]
    split
    · exact hInv
    · split
      · exact hInv
      · split
        · refine ⟨?_, ?_, ?_, ?_, ?_, ?_, ?_, ?_⟩ <;> simp_all
        · split
          · refine ⟨?_, ?_, ?_, ?_, ?_, ?_, ?_, ?_⟩ <;> simp_all
          · split
            · refine ⟨?_, ?_, ?_, ?_, ?_, ?_, ?_, ?_⟩ <;> simp_all
            · refine ⟨?_, ?_, ?_, ?_, ?_, ?_, ?_, ?_⟩ <;> simp_all
  | finishErrReported ok =>
    simp only [applyEv, step]
    split
    · exact hInv
    · split
      · exact hInv
      · split
        · refine ⟨?_, ?_, ?_, ?_, ?_, ?_, ?_, ?_⟩ <;> simp_all
        · split
          · refine ⟨?_, ?_, ?_, ?_, ?_, ?_, ?_, ?_⟩ <;> simp_all
          · split
            · refine ⟨?_, ?_, ?_, ?_, ?_, ?_, ?_, ?_⟩ <;> simp_all
            · refine ⟨?_, ?_, ?_, ?_, ?_, ?_, ?_, ?_⟩ <;> simp_all

/-- The invariant holds along every trace from an invariant state. -/
theorem inv_runFrom (s : St) (tr : List Ev) (h : Inv s) : Inv (runFrom s tr) := by
  induction tr generalizing s with
  | nil => exact h
  | cons e tr ih => exact ih _ (inv_applyEv s e h)

/-- The invariant holds at every reachable state of a dial attempt. -/
theorem inv_run (dt : Bool) (tr : List Ev) : Inv (run dt tr) :=
  inv_runFrom _ _ (inv_initSt dt)

@[simp] theorem sendErr_sent (s : St) (e : GoErr) : (sendErr s e).sent = s.sent := by
  unfold sendErr
  split
  · rfl
  · split <;> rfl

@[simp] theorem sendErr_exchCancelled (s : St) (e : GoErr) :
    (sendErr s e).exchCancelled = s.exchCancelled := by
  unfold sendErr
  split
  · rfl
  · split <;> rfl

@[simp] theorem sendErr_trickleDisabled (s : St) (e : GoErr) :
    (sendErr s e).trickleDisabled = s.trickleDisabled := by
  unfold sendErr
  split
  · rfl
  · split <;> rfl

@[simp] theorem taskErr_sent (s : St) (e : GoErr) : (taskErr s e).sent = s.sent := by
  simp [taskErr]

@[simp] theorem taskErr_exchCancelled (s : St) (e : GoErr) :
    (taskErr s e).exchCancelled = s.exchCancelled := by
  simp [taskErr]

@[simp] theorem taskErr_trickleDisabled (s : St) (e : GoErr) :
    (taskErr s e).trickleDisabled = s.trickleDisabled := by
  simp [taskErr]

@[simp] theorem taskExit_sent (s : St) : (taskExit s).sent = s.sent := by
  unfold taskExit
  split <;> simp

@[simp] theorem taskExit_exchCancelled (s : St) :
    (taskExit s).exchCancelled = s.exchCancelled := by
  unfold taskExit
  split <;> simp

@[simp] theorem taskExit_trickleDisabled (s : St) :
    (taskExit s).trickleDisabled = s.trickleDisabled := by
  unfold taskExit
  split <;> simp

/-- No event changes the negotiation mode of the attempt. -/
theorem applyEv_trickleDisabled (s : St) (e : Ev) :
    (applyEv s e).trickleDisabled = s.trickleDisabled := by
  cases e <;> simp only [applyEv, step] <;>
    (repeat' split) <;> simp_all

/-- The negotiation mode at every reachable state is the dialed one. -/
theorem run_trickleDisabled (dt : Bool) (tr : List Ev) :
    (run dt tr).trickleDisabled = dt := by
  suffices h : ∀ s tr, (runFrom s tr).trickleDisabled = s.trickleDisabled by
    simpa [run, initSt] using h (initSt dt) tr
  intro s tr
  induction tr generalizing s with
  | nil => rfl
  | cons e tr ih => rw [runFrom, ih, applyEv_trickleDisabled]

/-- Once the exchange context is done, no step transmits anything further
and the context stays done. -/
theorem applyEv_frozen (s : St) (e : Ev) (h : s.exchCancelled = true) :
    (applyEv s e).sent = s.sent ∧ (applyEv s e).exchCancelled = true := by
  cases e <;> simp only [applyEv, step] <;>
    (repeat' split) <;> simp_all

/-- Once the exchange context is done, no trace of further events adds a
message to the signaling service. -/
theorem runFrom_frozen (s : St) (tr : List Ev) (h : s.exchCancelled = true) :
    (runFrom s tr).sent = s.sent := by
  induction tr generalizing s with
  | nil => rfl
  | cons e tr ih =>
    obtain ⟨hs, hc⟩ := applyEv_frozen s e h
    rw [runFrom, ih _ hc, hs]

/-! ## Claim theorems -/

/-- Claim C1: for every dial attempt and every interleaving of the code
paths that attempt to emit a termination record (the gathering-complete
callback, init handling in vanilla mode, the readiness path, and the
failure path), at most one termination record (a done update or an
error-with-status update) is ever transmitted to the signaling service:
all sends are guarded by the same one-shot guard. -/
theorem at_most_one_termination_record (dt : Bool) (tr : List Ev) :
    termCount (run dt tr).sent ≤ 1 :=
  (inv_run dt tr).2.1

/-- Claim C2: in trickle mode, for every interleaving of local candidate
discovery with the inbound message stream, no locally gathered candidate
is transmitted before the remote description has been applied; the
remote-description-ready signal is closed only together with a successful
SetRemoteDescription; and a hook invocation that is neither unblocked by
the signal nor released by cancellation is blocked (the candidate stays
queued in the callback), not dropped. -/
theorem no_candidate_before_remote_desc (dt : Bool) (tr : List Ev) :
    ((run dt tr).remoteDescApplied = false → candRecs (run dt tr).sent = []) ∧
    ((run dt tr).remoteDescSet = true → (run dt tr).remoteDescApplied = true) ∧
    (∀ (c : Option ICECandidateInit) (ok : Bool),
      (run dt tr).trickleDisabled = false →
      (run dt tr).remoteDescSet = false →
      (run dt tr).exchCancelled = false →
      step (run dt tr) (.iceCandidate c ok) = none) := by
  obtain ⟨h1, h2, h3, h4, h5, h6, h7, h8⟩ := inv_run dt tr
  refine ⟨?_, h3, ?_⟩
  · intro hra
    apply h4
    cases hrs : (run dt tr).remoteDescSet
    · rfl
    · exact absurd (h3 hrs) (by simp [hra])
  · intro c ok htd hrs hec
    simp [step, htd, hrs, hec]

theorem no_candidate_before_remote_desc_witness :
    candRecs (run false []).sent = [] ∧
    step (run false []) (.iceCandidate none true) = none :=
  ⟨(no_candidate_before_remote_desc false []).1 (by decide),
   (no_candidate_before_remote_desc false []).2.2 none true (by decide)
     (by decide) (by decide)⟩

/-- Claim C6: for every reachable state of an exchange, an update message
processed before any init message aborts the exchange with the
protocol-violation error "got update stage before init stage", reported
to the orchestrator; the carried candidate is neither applied to the peer
connection nor silently ignored, and nothing is transmitted. -/
theorem update_before_init_rejected (dt : Bool) (tr : List Ev)
    (u : String) (c : ProtoICECandidate) (addOk : Bool)
    (h1 : (run dt tr).haveInit = false)
    (h2 : (run dt tr).taskDone = false)
    (h3 : (run dt tr).ctxErr = none)
    (h4 : (run dt tr).dialDone = false)
    (h5 : (run dt tr).reported = none) :
    ∃ s2, step (run dt tr) (.recvUpdate u c addOk) = some s2 ∧
      s2.taskDone = true ∧ s2.reported = some [.updateBeforeInit] ∧
      s2.pcCands = (run dt tr).pcCands ∧ s2.sent = (run dt tr).sent := by
  obtain ⟨g1, g2, g3, g4, g5, g6, g7, g8⟩ := inv_run dt tr
  have hec : (run dt tr).exchCancelled = false := by
    cases hc : (run dt tr).exchCancelled
    · rfl
    · rcases g6 hc with h | h
      · exact absurd h3 h
      · exact absurd h (by simp [h4])
  refine ⟨{ run dt tr with
            taskDone := true
            reported := some [.updateBeforeInit] }, ?_, ?_, ?_, ?_, ?_⟩ <;>
    simp [step, taskErr, sendErr, h1, h2, h5, hec]

theorem update_before_init_rejected_witness :
    ∃ s2, step (run false [])
        (.recvUpdate "x" (ProtoICECandidate.mk "c" none none none) true) =
          some s2 ∧
      s2.taskDone = true ∧ s2.reported = some [.updateBeforeInit] ∧
      s2.pcCands = (run false []).pcCands ∧ s2.sent = (run false []).sent :=
  update_before_init_rejected false [] "x" _ true (by decide) (by decide)
    (by decide) (by decide) (by decide)

/-- Claim C7: for every reachable state of an exchange that has processed
its init, an update whose session identifier differs from the one the
init assigned aborts the exchange with the uuid-mismatch protocol error,
reported to the orchestrator; the candidate is not applied. -/
theorem uuid_mismatch_rejected (dt : Bool) (tr : List Ev)
    (u : String) (c : ProtoICECandidate) (addOk : Bool)
    (h1 : (run dt tr).haveInit = true)
    (hu : u ≠ (run dt tr).uuid)
    (h2 : (run dt tr).taskDone = false)
    (h3 : (run dt tr).ctxErr = none)
    (h4 : (run dt tr).dialDone = false)
    (h5 : (run dt tr).reported = none) :
    ∃ s2, step (run dt tr) (.recvUpdate u c addOk) = some s2 ∧
      s2.taskDone = true ∧
      s2.reported = some [.uuidMismatch u (run dt tr).uuid] ∧
      s2.pcCands = (run dt tr).pcCands ∧ s2.sent = (run dt tr).sent := by
  obtain ⟨g1, g2, g3, g4, g5, g6, g7, g8⟩ := inv_run dt tr
  have hec : (run dt tr).exchCancelled = false := by
    cases hc : (run dt tr).exchCancelled
    · rfl
    · rcases g6 hc with h | h
      · exact absurd h3 h
      · exact absurd h (by simp [h4])
  refine ⟨{ run dt tr with
            taskDone := true
            reported := some [.uuidMismatch u (run dt tr).uuid] },
          ?_, ?_, ?_, ?_, ?_⟩ <;>
    simp [step, taskErr, sendErr, h1, h2, h5, hec, hu]

theorem uuid_mismatch_rejected_witness :
    ∃ s2, step (run false [.recvInit "a" "sdp" true true true])
        (.recvUpdate "b" (ProtoICECandidate.mk "c" none none none) true) =
          some s2 ∧
      s2.taskDone = true ∧
      s2.reported = some [.uuidMismatch "b"
        (run false [.recvInit "a" "sdp" true true true]).uuid] ∧
      s2.pcCands = (run false [.recvInit "a" "sdp" true true true]).pcCands ∧
      s2.sent = (run false [.recvInit "a" "sdp" true true true]).sent :=
  uuid_mismatch_rejected false [.recvInit "a" "sdp" true true true] "b" _ true
    (by decide) (by decide) (by decide) (by decide) (by decide) (by decide)

/-- With a live caller context and the dial still in progress, the
exchange context is live too (it only ends with the caller context or
with the deferred exchangeCancel on return). -/
theorem exch_alive (dt : Bool) (tr : List Ev)
    (hctx : (run dt tr).ctxErr = none)
    (hdial : (run dt tr).dialDone = false) :
    (run dt tr).exchCancelled = false := by
  obtain ⟨g1, g2, g3, g4, g5, g6, g7, g8⟩ := inv_run dt tr
  cases hc : (run dt tr).exchCancelled
  · rfl
  · rcases g6 hc with h | h
    · exact absurd hctx h
    · exact absurd h (by simp [hdial])

/-- Claim C9: when the channel becomes ready before cancellation or any
reported error, the orchestrator sends the done termination record if it
has not already been sent (and never a second one) and returns the
established channel to the caller. -/
theorem readiness_sends_done_returns_channel (dt : Bool) (tr : List Ev)
    (h1 : (run dt tr).dialDone = false)
    (h2 : (run dt tr).ctxErr = none) :
    ∃ s2, step (run dt tr) (.finishReady true) = some s2 ∧
      s2.retChanOk = true ∧
      s2.sent = (if (run dt tr).once = true then (run dt tr).sent
                 else (run dt tr).sent ++ [.done (run dt tr).uuid]) ∧
      termCount s2.sent ≤ 1 := by
  obtain ⟨g1, g2, g3, g4, g5, g6, g7, g8⟩ := inv_run dt tr
  have hec : (run dt tr).exchCancelled = false := exch_alive dt tr h2 h1
  cases ho : (run dt tr).once with
  | true =>
    refine ⟨{ run dt tr with
              dialDone := true
              exchCancelled := true
              retChanOk := true }, ?_, rfl, ?_, ?_⟩
    · simp [step, h1, ho]
    · simp [ho]
    · simpa using g2
  | false =>
    refine ⟨{ run dt tr with
              once := true
              sent := (run dt tr).sent ++ [.done (run dt tr).uuid]
              dialDone := true
              exchCancelled := true
              retChanOk := true }, ?_, rfl, ?_, ?_⟩
    · simp [step, h1, ho, hec]
    · simp [ho]
    · simp [g1 ho]

theorem readiness_sends_done_returns_channel_witness :
    ∃ s2, step (run false []) (.finishReady true) = some s2 ∧
      s2.retChanOk = true ∧
      s2.sent = (if (run false []).once = true then (run false []).sent
                 else (run false []).sent ++ [.done (run false []).uuid]) ∧
      termCount s2.sent ≤ 1 :=
  readiness_sends_done_returns_channel false [] (by decide) (by decide)

/-- Claim C10: if the dial attempt fails before any init message has been
received (so no session identifier was ever assigned), the terminal error
update is still transmitted to the signaling service, carrying the
empty-string session identifier rather than being suppressed. -/
theorem preinit_failure_sends_error_with_empty_uuid (dt : Bool)
    (tr : List Ev) (e0 : GoErr)
    (h1 : (run dt tr).haveInit = false)
    (h2 : (run dt tr).reported = some e0)
    (h3 : (run dt tr).ctxErr = none)
    (h4 : (run dt tr).dialDone = false)
    (h5 : (run dt tr).once = false) :
    ∃ s2, step (run dt tr) (.finishErrReported true) = some s2 ∧
      s2.sent = (run dt tr).sent ++ [.error "" e0] ∧
      s2.chClosed = true ∧ s2.retErr = some e0 := by
  obtain ⟨g1, g2, g3, g4, g5, g6, g7, g8⟩ := inv_run dt tr
  have hec : (run dt tr).exchCancelled = false := exch_alive dt tr h3 h4
  have huuid : (run dt tr).uuid = "" := g8 h1
  refine ⟨{ run dt tr with
            chClosed := true
            reported := none
            once := true
            sent := (run dt tr).sent ++ [.error (run dt tr).uuid e0]
            dialDone := true
            exchCancelled := true
            retErr := some e0 }, ?_, ?_, rfl, rfl⟩
  · simp [step, h2, h4, h5, hec]
  · simp [huuid]

theorem preinit_failure_sends_error_with_empty_uuid_witness :
    ∃ s2, step (run false [.recvOther]) (.finishErrReported true) = some s2 ∧
      s2.sent = (run false [.recvOther]).sent ++
        [.error "" [.unexpectedStage]] ∧
      s2.chClosed = true ∧ s2.retErr = some [.unexpectedStage] :=
  preinit_failure_sends_error_with_empty_uuid false [.recvOther]
    [.unexpectedStage] (by decide) (by decide) (by decide) (by decide)
    (by decide)

/-- On the cancellation path of doCall (the ctx.Done arm), the dial
closes the channel wrapper, the returned combined error starts with the
cancellation cause, and nothing is transmitted by this step. -/
theorem finishErrCtx_cancelled_step (s : St) (ok : Bool) (cause : ErrAtom)
    (h1 : s.dialDone = false) (h2 : s.ctxErr = some cause)
    (h3 : s.exchCancelled = true) :
    ∃ s2, step s (.finishErrCtx ok) = some s2 ∧
      s2.chClosed = true ∧
      (s2.retErr.getD []).head? = some cause ∧
      cause ∈ s2.retErr.getD [] ∧
      s2.sent = s.sent ∧ s2.exchCancelled = true := by
  cases ho : s.once with
  | true =>
    refine ⟨{ s with
              chClosed := true
              dialDone := true
              exchCancelled := true
              retErr := some [cause] }, ?_, rfl, rfl, ?_, rfl, rfl⟩
    · simp [step, h1, h2, ho]
    · simp
  | false =>
    refine ⟨{ s with
              chClosed := true
              once := true
              dialDone := true
              exchCancelled := true
              retErr := some ([cause] ++ [s.exchCause]) }, ?_, rfl, rfl,
            ?_, rfl, rfl⟩
    · simp [step, h1, h2, ho, h3]
    · simp

/-- Claim C4: if the caller context expires or is canceled while the
orchestrator waits for readiness, then on the cancellation arm of the
wait the channel wrapper is closed, the returned combined error leads
with (hence is, in the errors.Is sense) the cancellation cause, and no
further message is transmitted to the signaling service after that
closure — neither by the terminating step (whose best-effort error send
fails on the done exchange context) nor by any later events. -/
theorem cancellation_closes_channel_and_silences (dt : Bool)
    (tr tr2 : List Ev) (deadline ok : Bool)
    (h1 : (run dt tr).dialDone = false) :
    ∃ cause s2,
      (applyEv (run dt tr) (.cancelCtx deadline)).ctxErr = some cause ∧
      step (applyEv (run dt tr) (.cancelCtx deadline)) (.finishErrCtx ok) =
        some s2 ∧
      s2.chClosed = true ∧
      (s2.retErr.getD []).head? = some cause ∧
      cause ∈ s2.retErr.getD [] ∧
      s2.sent = (run dt tr).sent ∧
      (runFrom s2 tr2).sent = s2.sent := by
  obtain ⟨g1, g2, g3, g4, g5, g6, g7, g8⟩ := inv_run dt tr
  have hc : ∃ cause,
      (applyEv (run dt tr) (.cancelCtx deadline)).ctxErr = some cause ∧
      (applyEv (run dt tr) (.cancelCtx deadline)).exchCancelled = true ∧
      (applyEv (run dt tr) (.cancelCtx deadline)).dialDone = false ∧
      (applyEv (run dt tr) (.cancelCtx deadline)).sent = (run dt tr).sent := by
    cases hcx : (run dt tr).ctxErr with
    | none =>
      exact ⟨if deadline then .deadlineExceeded else .canceled,
        by simp [applyEv, step, hcx], by simp [applyEv, step, hcx],
        by simp [applyEv, step, hcx, h1], by simp [applyEv, step, hcx]⟩
    | some a =>
      exact ⟨a, by simp [applyEv, step, hcx],
        by simpa [applyEv, step, hcx] using g7 (by simp [hcx]),
        by simp [applyEv, step, hcx, h1], by simp [applyEv, step, hcx]⟩
  obtain ⟨cause, hce, hcc, hcd, hcs⟩ := hc
  obtain ⟨s2, hstep, hcl, hhead, hmem, hsent, hexc⟩ :=
    finishErrCtx_cancelled_step _ ok cause hcd hce hcc
  exact ⟨cause, s2, hce, hstep, hcl, hhead, hmem, hsent.trans hcs,
    runFrom_frozen s2 tr2 hexc⟩

theorem cancellation_closes_channel_and_silences_witness :
    ∃ cause s2,
      (applyEv (run false []) (.cancelCtx false)).ctxErr = some cause ∧
      step (applyEv (run false []) (.cancelCtx false)) (.finishErrCtx true) =
        some s2 ∧
      s2.chClosed = true ∧
      (s2.retErr.getD []).head? = some cause ∧
      cause ∈ s2.retErr.getD [] ∧
      s2.sent = (run false []).sent ∧
      (runFrom s2 [.iceCandidate none true, .recvOther]).sent = s2.sent :=
  cancellation_closes_channel_and_silences false []
    [.iceCandidate none true, .recvOther] false true (by decide)

/-- Claim C5: if the signaling service answers the initial bidirectional
call with a gRPC Unimplemented status, dialWebRTC returns exactly the
specifically classified no-signaler condition (ErrNoWebRTCSignaler), not
a generic error. -/
theorem unimplemented_call_yields_no_signaler (o : DialOracle) (dt : Bool)
    (h1 : o.dialGRPCOk = true) (h2 : o.configOk = true)
    (h3 : ∃ p, newPeerConnectionForClient o.factory dt = .ok p)
    (h4 : o.offerOk = true) (h5 : o.setLocalOk = true)
    (h6 : o.encodeOk = true)
    (h7 : o.callResult = .statusErr .unimplemented) :
    dialWebRTCSetup o dt = .error [.noWebRTCSignaler] := by
  obtain ⟨p, hp⟩ := h3
  simp [dialWebRTCSetup, h1, h2, hp, h4, h5, h6, h7]

theorem unimplemented_call_yields_no_signaler_witness :
    dialWebRTCSetup (DialOracle.mk true true
        (FactoryOracle.mk true true true true true false) true true true
        (.statusErr .unimplemented)) false = .error [.noWebRTCSignaler] :=
  unimplemented_call_yields_no_signaler _ false rfl rfl
    ⟨ClientPeer.mk true true 0 false false, rfl⟩ rfl rfl rfl rfl

/-- Claim C3: in vanilla mode the client sends no candidate-update
messages at all: the connection factory blocks until ICE gathering
completes before returning successfully (so the full candidate set is in
the local description sent with the initial request), no
candidate-emission hook is installed (the hook event is never enabled),
and the done termination record is emitted immediately when the init
message is processed. -/
theorem vanilla_mode_batched (o : FactoryOracle) (p : ClientPeer)
    (tr : List Ev) (u sdp : String)
    (hp : newPeerConnectionForClient o true = .ok p)
    (h1 : (run true tr).taskDone = false)
    (h2 : (run true tr).haveInit = false)
    (h3 : (run true tr).ctxErr = none)
    (h4 : (run true tr).dialDone = false)
    (h5 : (run true tr).once = false) :
    p.gatherComplete = true ∧ p.localDescSet = true ∧
    (∀ tr2 : List Ev, candRecs (run true tr2).sent = []) ∧
    (∀ (tr2 : List Ev) (c : Option ICECandidateInit) (ok : Bool),
      step (run true tr2) (.iceCandidate c ok) = none) ∧
    step (run true tr) (.recvInit u sdp true true true) =
      some { run true tr with
             haveInit := true
             uuid := u
             remoteDescApplied := true
             remoteDescSet := true
             pcRemoteDesc := some sdp
             once := true
             sent := (run true tr).sent ++ [.done u]
             taskDone := true } := by
  have htd := run_trickleDisabled true tr
  have hec : (run true tr).exchCancelled = false := exch_alive true tr h3 h4
  refine ⟨?_, ?_, ?_, ?_, ?_⟩
  · unfold newPeerConnectionForClient at hp
    repeat' split at hp
    all_goals cases hp
    all_goals simp_all
  · unfold newPeerConnectionForClient at hp
    repeat' split at hp
    all_goals cases hp
    all_goals simp_all
  · intro tr2
    exact (inv_run true tr2).2.2.2.2.1 (run_trickleDisabled true tr2)
  · intro tr2 c ok
    simp [step, run_trickleDisabled true tr2]
  · simp [step, h1, hec, h2, htd, h5]

theorem vanilla_mode_batched_witness :
    (ClientPeer.mk true true 0 true true).gatherComplete = true ∧
    (ClientPeer.mk true true 0 true true).localDescSet = true ∧
    candRecs (run true [.recvInit "a" "s" true true true,
      .finishReady true]).sent = [] ∧
    step (run true [.recvInit "a" "s" true true true])
      (.iceCandidate (some (ICECandidateInit.mk "c" none none none)) true) =
      none ∧
    step (run true []) (.recvInit "a" "s" true true true) =
      some { run true [] with
             haveInit := true
             uuid := "a"
             remoteDescApplied := true
             remoteDescSet := true
             pcRemoteDesc := some "s"
             once := true
             sent := (run true []).sent ++ [.done "a"]
             taskDone := true } := by
  have h := vanilla_mode_batched (FactoryOracle.mk true true true true true false)
    (ClientPeer.mk true true 0 true true) [] "a" "s" rfl
    (by decide) (by decide) (by decide) (by decide) (by decide)
  exact ⟨h.1, h.2.1, h.2.2.1 _, h.2.2.2.1 _ _ true, h.2.2.2.2⟩

/-- Counterexample to claim C8 as stated: the translator is not exact in
both directions on all values — a wire candidate whose line index is
65536 (legal in the uint32 wire field) is truncated to 0 by the uint16
narrowing of iceCandidateFromProto, so translating it to local form and
back does not preserve the line index. -/
theorem translator_wire_direction_not_exact :
    iceCandidateInitToProto (iceCandidateFromProto
        (ProtoICECandidate.mk "" none (some 65536) none)) ≠
      ProtoICECandidate.mk "" none (some 65536) none := by
  decide

/-- Claim C8 (amended): the translator preserves the candidate string,
the mid and the username fragment exactly and maps absent optional
fields to absent (not zero-valued) fields in both directions; the line
index is preserved exactly from local to wire form, and from wire to
local form whenever it fits in 16 bits (the uint16 narrowing reduces it
mod 2^16 otherwise).  In particular, for every local candidate — whose
line index, being a uint16, is below 2^16 — translating to wire form and
back yields a candidate equal in all four fields, including equal
absence of the optional ones. -/
theorem translator_roundtrip_exact (ij : ICECandidateInit)
    (p : ProtoICECandidate)
    (hij : ∀ v, ij.sdpMLineIndex = some v → v < 2 ^ 16)
    (hp : ∀ v, p.sdpmLineIndex = some v → v < 2 ^ 16) :
    iceCandidateFromProto (iceCandidateInitToProto ij) = ij ∧
    iceCandidateInitToProto (iceCandidateFromProto p) = p ∧
    ((iceCandidateInitToProto ij).sdpMid = none ↔ ij.sdpMid = none) ∧
    ((iceCandidateInitToProto ij).sdpmLineIndex = none ↔
      ij.sdpMLineIndex = none) ∧
    ((iceCandidateInitToProto ij).usernameFragment = none ↔
      ij.usernameFragment = none) ∧
    ((iceCandidateFromProto p).sdpMid = none ↔ p.sdpMid = none) ∧
    ((iceCandidateFromProto p).sdpMLineIndex = none ↔
      p.sdpmLineIndex = none) ∧
    ((iceCandidateFromProto p).usernameFragment = none ↔
      p.usernameFragment = none) := by
  obtain ⟨ic, im, ii, iu⟩ := ij
  obtain ⟨pc, pm, pi, pu⟩ := p
  refine ⟨?_, ?_, Iff.rfl, Iff.rfl, Iff.rfl, Iff.rfl, ?_, Iff.rfl⟩
  · cases ii with
    | none => rfl
    | some v =>
      have hv : v < 65536 := hij v rfl
      simp [iceCandidateInitToProto, iceCandidateFromProto,
        Nat.mod_eq_of_lt hv]
  · cases pi with
    | none => rfl
    | some v =>
      have hv : v < 65536 := hp v rfl
      simp [iceCandidateInitToProto, iceCandidateFromProto,
        Nat.mod_eq_of_lt hv]
  · cases pi <;> simp [iceCandidateFromProto]

theorem translator_roundtrip_exact_witness :
    iceCandidateFromProto (iceCandidateInitToProto
        (ICECandidateInit.mk "cand" (some "0") (some 0) (some "u"))) =
      ICECandidateInit.mk "cand" (some "0") (some 0) (some "u") ∧
    iceCandidateInitToProto (iceCandidateFromProto
        (ProtoICECandidate.mk "cand" (some "0") (some 0) (some "u"))) =
      ProtoICECandidate.mk "cand" (some "0") (some 0) (some "u") := by
  have h := translator_roundtrip_exact
    (ICECandidateInit.mk "cand" (some "0") (some 0) (some "u"))
    (ProtoICECandidate.mk "cand" (some "0") (some 0) (some "u"))
    (by intro v hv; injection hv with h; subst h; decide)
    (by intro v hv; injection hv with h; subst h; decide)
  exact ⟨h.1, h.2.1⟩

end RpcWebRTC
